import Mathlib

/-!
Verification of a browser-based shoppable-video viewer.

The development embeds, as executable Lean definitions, the parts of the
application that the specification talks about:

* upload validation (`handleFileUpload` in the application root component),
* the detection-service response handling (`detectProducts` in
  `services/geminiService.ts`), including a small model of the JavaScript
  values produced by `JSON.parse` and of the property accesses the code
  performs on them,
* the overlay renderer (`DetectionOverlay` in
  `components/DetectionOverlay.tsx`),
* the playback controller (`captureFrame`, `handlePlay` in the
  `VideoPlayer` component), modelled as an event trace over the component
  state.

JavaScript built-ins used by the code (`String.prototype.toLowerCase`,
`String.prototype.startsWith`, regular-expression extension tests,
`encodeURIComponent`, `Number.prototype.toFixed`, property access and
array indexing on parsed JSON values) are modelled explicitly; each model
carries a doc comment saying what it stands for.
-/

/-- Model of `String.prototype.startsWith`: true when `pat` is a prefix of
`s`, compared character by character. -/
def strStarts (s pat : String) : Bool :=
  pat.data.isPrefixOf s.data

/-- Model of a `$`-anchored regular-expression test: true when `pat` is a
suffix of `s`. -/
def strEnds (s pat : String) : Bool :=
  pat.data.isSuffixOf s.data

/-- Helper for `strContains`: does `pat` occur as a contiguous run inside
the character list? -/
def infixOccurs (pat : List Char) : List Char → Bool
  | [] => pat.isEmpty
  | c :: rest => pat.isPrefixOf (c :: rest) || infixOccurs pat rest

/-- Model of `String.prototype.includes`: true when `pat` occurs as a
contiguous substring of `s`. -/
def strContains (s pat : String) : Bool :=
  infixOccurs pat.data s.data

/-- Model of a single ASCII-range lowercase step, as performed by
`String.prototype.toLowerCase` on the ASCII letters that the fixed tables
and extension lists of this application use. This coincides with Lean's
`Char.toLower`. -/
def jsCharLower (c : Char) : Char := Char.toLower c

/-- Model of `String.prototype.toLowerCase`, restricted to the ASCII
letters exercised by the application (category keys and file extensions
are all ASCII): every character is lowercased independently. -/
def jsToLowerCase (s : String) : String := String.mk (s.data.map jsCharLower)

/-- Uploaded file as seen by the upload handler: name, MIME type and size
in bytes (the only three fields `handleFileUpload` reads). -/
structure JsFile where
  name : String
  type : String
  size : Nat
deriving DecidableEq

/-- Constant `MAX_FILE_SIZE_MB` from the application root component. -/
def MAX_FILE_SIZE_MB : Nat := 100

/-- The value `maxSizeInBytes = MAX_FILE_SIZE_MB * 1024 * 1024` computed
inside `handleFileUpload`. -/
def maxSizeInBytes : Nat := MAX_FILE_SIZE_MB * 1024 * 1024

/-- The check `file.type.startsWith('video/')` from `handleFileUpload`. -/
def isVideoMime (f : JsFile) : Bool :=
  strStarts f.type "video/"

/-- The check `/\.(mp4|webm|ogg|mov|mkv)$/i.test(file.name)` from
`handleFileUpload`: the lowercased name ends in one of the five
extensions. -/
def hasVideoExtension (f : JsFile) : Bool :=
  [".mp4", ".webm", ".ogg", ".mov", ".mkv"].any
    (fun ext => strEnds (jsToLowerCase f.name) ext)

/-- The unsupported-format rejection message, with the file name
interpolated. -/
def unsupportedFormatMsg (name : String) : String :=
  "\"" ++ name ++ "\" does not appear to be a supported video format. Please use MP4, WebM, or OGG."

/-- The empty-file rejection message. -/
def emptyFileMsg : String :=
  "The selected file is empty (0 bytes). Please upload a valid video file."

/-- The oversized-file rejection message, with the formatted size
interpolated (the `100` is the interpolated `MAX_FILE_SIZE_MB`). -/
def fileTooLargeMsg (sizeMB : String) : String :=
  "File is too large (" ++ sizeMB ++ "MB). Please select a video smaller than 100MB to ensure smooth analysis."

/-- Model of the JavaScript expression
`(file.size / (1024 * 1024)).toFixed(1)` over exact rationals: the size in
MB rendered with one decimal digit, ties rounded up (the `toFixed`
algorithm picks the larger candidate on a tie). -/
def fileSizeMBString (size : Nat) : String :=
  let tenths := (size * 10 + 524288) / 1048576
  toString (tenths / 10) ++ "." ++ toString (tenths % 10)

/-- Result of the upload handler: either a rejection with the error
message passed to `setError`, or acceptance (the handler goes on to create
an object URL and install the new source). -/
inductive UploadResult where
  | reject (msg : String)
  | accepted
deriving DecidableEq

/-- Embedding of `handleFileUpload` from the application root component,
for a present file: the format check runs first, then the empty-file
check, then the size-limit check; a file passing all three is accepted. -/
def handleFileUpload (f : JsFile) : UploadResult :=
  if !isVideoMime f && !hasVideoExtension f then
    UploadResult.reject (unsupportedFormatMsg f.name)
  else if f.size == 0 then
    UploadResult.reject emptyFileMsg
  else if f.size > maxSizeInBytes then
    UploadResult.reject (fileTooLargeMsg (fileSizeMBString f.size))
  else
    UploadResult.accepted

/-- JavaScript values that can appear while the service response is
processed: the values `JSON.parse` can produce, plus `undefined`, which
property access and array indexing can yield. -/
inductive JsVal where
  | undef
  | null
  | bool (b : Bool)
  | num (q : ℚ)
  | str (s : String)
  | arr (elems : List JsVal)
  | obj (fields : List (String × JsVal))

/-- Own-property lookup on the field list of a parsed JSON object. -/
def lookupField (fields : List (String × JsVal)) (k : String) : Option JsVal :=
  (fields.find? (fun p => p.1 == k)).map (fun p => p.2)

/-- Model of the JavaScript property access `v[k]` for the plain-data keys
this code reads (`products`, `category`, `box`, `name`): a `TypeError` on
`undefined` and `null`, the own property (or `undefined`) on objects, and
`undefined` on the remaining primitives and arrays, none of which carry
these keys. -/
def jsGetField (v : JsVal) (k : String) : Except String JsVal :=
  match v with
  | JsVal.undef => Except.error ("TypeError: cannot read properties of undefined (reading " ++ k ++ ")")
  | JsVal.null => Except.error ("TypeError: cannot read properties of null (reading " ++ k ++ ")")
  | JsVal.obj fields => Except.ok ((lookupField fields k).getD JsVal.undef)
  | _ => Except.ok JsVal.undef

/-- Model of the JavaScript call `v.toLowerCase()`: succeeds exactly on
strings; `undefined` and `null` fail at the property access, the other
values fail because the property is not a function. -/
def jsCallToLowerCase (v : JsVal) : Except String String :=
  match v with
  | JsVal.str s => Except.ok (jsToLowerCase s)
  | JsVal.undef => Except.error "TypeError: cannot read properties of undefined (reading toLowerCase)"
  | JsVal.null => Except.error "TypeError: cannot read properties of null (reading toLowerCase)"
  | _ => Except.error "TypeError: v.category.toLowerCase is not a function"

/-- Model of the JavaScript indexing `v[i]` for a numeric index: a
`TypeError` on `undefined` and `null`, the element (or `undefined` out of
range) on arrays, the one-character string on strings, and `undefined` on
the remaining primitives. -/
def jsIndex (v : JsVal) (i : Nat) : Except String JsVal :=
  match v with
  | JsVal.undef => Except.error ("TypeError: cannot read properties of undefined (reading " ++ toString i ++ ")")
  | JsVal.null => Except.error ("TypeError: cannot read properties of null (reading " ++ toString i ++ ")")
  | JsVal.arr elems => Except.ok ((elems.get? i).getD JsVal.undef)
  | JsVal.str s => Except.ok (((s.data.get? i).map (fun c => JsVal.str (String.mk [c]))).getD JsVal.undef)
  | _ => Except.ok JsVal.undef

/-- Model of the JavaScript number-to-string conversion, exact on
integers; a non-integer rational is rendered as `num/den` (no claim ever
evaluates this branch, since the concrete inputs use string names). -/
def jsNumToStr (q : ℚ) : String :=
  if q.den == 1 then toString q.num else toString q.num ++ "/" ++ toString q.den

mutual

/-- Model of the JavaScript `ToString` conversion applied by
`encodeURIComponent` to its argument, on the value shapes `JSON.parse` can
deliver for `p.name` (arrays join their elements with commas, with `null`
and `undefined` elements rendered empty). -/
def jsValToStr : JsVal → String
  | JsVal.undef => "undefined"
  | JsVal.null => "null"
  | JsVal.bool true => "true"
  | JsVal.bool false => "false"
  | JsVal.num q => jsNumToStr q
  | JsVal.str s => s
  | JsVal.arr elems => jsArrToStr elems
  | JsVal.obj _ => "[object Object]"

/-- Join of array elements for `jsValToStr`, with a comma between
consecutive elements. -/
def jsArrToStr : List JsVal → String
  | [] => ""
  | v :: rest =>
    (match v with
     | JsVal.undef => ""
     | JsVal.null => ""
     | w => jsValToStr w) ++
    (match rest with
     | [] => ""
     | _ => "," ++ jsArrToStr rest)
end

/-- UTF-8 encoding of one character, as a list of byte values. -/
def utf8Bytes (c : Char) : List Nat :=
  let n := c.toNat
  if n < 128 then [n]
  else if n < 2048 then [192 + n / 64, 128 + n % 64]
  else if n < 65536 then [224 + n / 4096, 128 + (n / 64) % 64, 128 + n % 64]
  else [240 + n / 262144, 128 + (n / 4096) % 64, 128 + (n / 64) % 64, 128 + n % 64]

/-- True when the UTF-8 byte value is one of the characters that
`encodeURIComponent` leaves unescaped: ASCII letters, digits, and
`- _ . ! ~ * ( )` together with the apostrophe (byte 39). -/
def isUnreservedByte (b : Nat) : Bool :=
  (65 ≤ b && b ≤ 90) || (97 ≤ b && b ≤ 122) || (48 ≤ b && b ≤ 57) ||
  b == 45 || b == 95 || b == 46 || b == 33 ||
  b == 126 || b == 42 || b == 39 || b == 40 || b == 41

/-- Uppercase hexadecimal digit for a value below 16. -/
def hexDigitChar (n : Nat) : Char :=
  if n < 10 then Char.ofNat (48 + n) else Char.ofNat (55 + n)

/-- Model of the JavaScript built-in `encodeURIComponent`: every UTF-8
byte outside the unreserved set is written as a percent sign followed by
two uppercase hexadecimal digits. -/
def encodeURIComponent (s : String) : String :=
  String.mk ((s.data.flatMap utf8Bytes).flatMap (fun b =>
    if isUnreservedByte b then [Char.ofNat b]
    else [Char.ofNat 37, hexDigitChar (b / 16), hexDigitChar (b % 16)]))

/-- The fixed table `SEARCH_BASE_URLS` from `services/geminiService.ts`,
as an ordered association list of its four own keys. -/
def SEARCH_BASE_URLS : List (String × String) :=
  [("fashion", "https://www.amazon.com/s?k="),
   ("shoe", "https://www.nike.com/w?q="),
   ("electronics", "https://www.bestbuy.com/site/searchpage.jsp?st="),
   ("default", "https://www.google.com/search?q=buy+")]

/-- Own-key lookup into `SEARCH_BASE_URLS`. -/
def lookupBaseUrl (key : String) : Option String :=
  (SEARCH_BASE_URLS.find? (fun p => p.1 == key)).map (fun p => p.2)

/-- The property names a JavaScript bracket access finds on the prototype
of a plain object literal (`Object.prototype`); every one of them holds a
truthy value there (a built-in function, or `Object.prototype` itself for
`__proto__`). -/
def objectPrototypeKeys : List String :=
  ["constructor", "hasOwnProperty", "isPrototypeOf", "propertyIsEnumerable",
   "toLocaleString", "toString", "valueOf", "__defineGetter__",
   "__defineSetter__", "__lookupGetter__", "__lookupSetter__", "__proto__"]

/-- Result of the JavaScript bracket access `SEARCH_BASE_URLS[key]`: one
of the literal's own string entries, a truthy value inherited from
`Object.prototype` (recorded by its property name), or `undefined`. -/
inductive PropLookup where
  | own (url : String)
  | inherited (name : String)
  | undefinedProp
deriving DecidableEq

/-- Model of the bracket access `SEARCH_BASE_URLS[key]` on the plain
object literal, prototype chain included: an own key yields its string
value, an `Object.prototype` property name yields the inherited truthy
value, and any other key yields `undefined`. -/
def searchBaseUrlsLookup (key : String) : PropLookup :=
  match lookupBaseUrl key with
  | Option.some url => PropLookup.own url
  | Option.none =>
    if key ∈ objectPrototypeKeys then PropLookup.inherited key
    else PropLookup.undefinedProp

/-- The expression
`SEARCH_BASE_URLS[p.category.toLowerCase()] || SEARCH_BASE_URLS['default']`
applied to the already-lowercased key: own entries and inherited
`Object.prototype` values are truthy, so `||` keeps them; only an
`undefined` lookup falls back to the entry at `"default"`. -/
def chooseBaseValue (keyLower : String) : PropLookup :=
  match searchBaseUrlsLookup keyLower with
  | PropLookup.undefinedProp => searchBaseUrlsLookup "default"
  | v => v

/-- Model of the string conversion the template literal applies to the
chosen base value: an own entry is the URL itself; `__proto__` inherits
`Object.prototype`, rendered `[object Object]`; the other inherited
properties are built-in functions, rendered in the V8 style
`function name() \x7b [native code] \x7d`. -/
def propToStr (v : PropLookup) : String :=
  match v with
  | PropLookup.own url => url
  | PropLookup.inherited name =>
    if name == "__proto__" then "[object Object]"
    else "function " ++ name ++ "() \x7b [native code] \x7d"
  | PropLookup.undefinedProp => "undefined"

/-- The named bounding-box fields built by `detectProducts` out of the
4-element `box` array (`ymin = p.box[0]` and so on); each field is
whatever JavaScript value the indexing produced. -/
structure JsBox where
  ymin : JsVal
  xmin : JsVal
  ymax : JsVal
  xmax : JsVal

/-- One element of the product list `detectProducts` returns: the spread
source object, the destructured box, and the generated shopping link. -/
structure MappedProduct where
  source : JsVal
  box : JsBox
  shoppingLink : String

/-- Embedding of the per-product arrow function inside `detectProducts`:
reads and lowercases `p.category`, chooses the base URL, destructures the
box by index, and builds the shopping link from the URL-encoded name.
Each JavaScript property access or method call that would throw a
`TypeError` is an `Except.error`. -/
def mapProduct (p : JsVal) : Except String MappedProduct := do
  let categoryVal ← jsGetField p "category"
  let categoryLower ← jsCallToLowerCase categoryVal
  let baseUrl := chooseBaseValue categoryLower
  let boxVal ← jsGetField p "box"
  let ymin ← jsIndex boxVal 0
  let xmin ← jsIndex boxVal 1
  let ymax ← jsIndex boxVal 2
  let xmax ← jsIndex boxVal 3
  let nameVal ← jsGetField p "name"
  pure { source := p
         box := { ymin := ymin, xmin := xmin, ymax := ymax, xmax := xmax }
         shoppingLink := propToStr baseUrl ++ encodeURIComponent (jsValToStr nameVal) }

/-- Embedding of the body of `detectProducts` from the point where the
service response text is in hand, before the surrounding `catch`.  Inputs:
the raw response text (`response.text`, with the empty string standing for
a falsy text) and the outcome of `JSON.parse` on it (`Option.none` when
the parse throws a `SyntaxError`).  A missing or non-array `products`
field yields the empty product list; an array is mapped product by
product. -/
def detectProductsRaw (text : String) (parsed : Option JsVal) : Except String (List MappedProduct) :=
  if text == "" then
    Except.error "The AI model returned an empty response."
  else
    match parsed with
    | Option.none => Except.error "SyntaxError: unexpected token in JSON"
    | Option.some result => do
      let productsVal ← jsGetField result "products"
      match productsVal with
      | JsVal.arr elems => elems.mapM mapProduct
      | _ => pure []

/-- Embedding of `detectProducts` including its `catch` clause: an error
whose message mentions `API_KEY` is replaced by the fixed API-key message,
an empty message by the generic fallback, and any other message is
rethrown unchanged. -/
def detectProducts (text : String) (parsed : Option JsVal) : Except String (List MappedProduct) :=
  match detectProductsRaw text parsed with
  | Except.ok products => Except.ok products
  | Except.error msg =>
    if strContains msg "API_KEY" then
      Except.error "Invalid or missing API Key. Please check your configuration."
    else if msg == "" then
      Except.error "An unexpected error occurred during product detection."
    else
      Except.error msg

/-- True when the parsed result would fail the
`!result.products || !Array.isArray(result.products)` guard in
`detectProducts` without first throwing: an object whose `products` own
property is missing or not an array, or a non-null primitive or array
(whose `products` access yields `undefined`).  `null` and `undefined` are
excluded because reading `products` on them throws. -/
def productsFieldNotArray (v : JsVal) : Bool :=
  match v with
  | JsVal.obj fields =>
    match lookupField fields "products" with
    | Option.some (JsVal.arr _) => false
    | _ => true
  | JsVal.null => false
  | JsVal.undef => false
  | _ => true

/-- Bounding box of a detected product as consumed by the overlay
renderer: the four normalized coordinates on the 0-1000 scale. -/
structure BoundingBox where
  ymin : ℚ
  xmin : ℚ
  ymax : ℚ
  xmax : ℚ
deriving DecidableEq

/-- The `DetectedProduct` interface from `types.ts`. -/
structure DetectedProduct where
  id : String
  name : String
  category : String
  confidence : ℚ
  box : BoundingBox
  shoppingLink : String
deriving DecidableEq

/-- One rendered overlay rectangle: the four percentage values of its
inline style, the hover label, and the link opened on click. -/
structure OverlayRect where
  top : ℚ
  left : ℚ
  width : ℚ
  height : ℚ
  label : String
  clickTarget : String
deriving DecidableEq

/-- What the overlay component renders: the processing indicator, nothing
at all, or one rectangle per product. -/
inductive OverlayOutput where
  | processingIndicator
  | noOverlay
  | rects (items : List OverlayRect)
deriving DecidableEq

/-- Embedding of the `DetectionOverlay` component: the processing
indicator while processing, nothing when the product list is empty, and
otherwise one rectangle per product with the percentage geometry computed
from the box (each 0-1000 coordinate divided by 10). -/
def DetectionOverlay (products : List DetectedProduct) (isProcessing : Bool) : OverlayOutput :=
  if isProcessing then
    OverlayOutput.processingIndicator
  else if products.length == 0 then
    OverlayOutput.noOverlay
  else
    OverlayOutput.rects (products.map (fun product =>
      { top := product.box.ymin / 10
        left := product.box.xmin / 10
        width := (product.box.xmax - product.box.xmin) / 10
        height := (product.box.ymax - product.box.ymin) / 10
        label := product.name
        clickTarget := product.shoppingLink }))

/-- The player-relevant component state: the `isPaused` flag of
`VideoPlayer` and the three pieces of lifted state the `App` component
owns (`detections`, `isProcessing`, `error`). -/
structure PlayerState where
  isPaused : Bool
  detections : List DetectedProduct
  isProcessing : Bool
  error : Option String
deriving DecidableEq

/-- Embedding of the `handlePlay` event handler: `setIsPaused(false)`,
`onError(null)`, `onDetections([])`. -/
def handlePlay (s : PlayerState) : PlayerState :=
  { s with isPaused := false, error := Option.none, detections := [] }

/-- One state-changing step performed during a capture cycle, in the
order `captureFrame` performs them; `detectRequest` marks the call to
`detectProducts`. -/
inductive CaptureEvent where
  | setErrorEvent (msg : Option String)
  | setProcessingEvent (flag : Bool)
  | setDetectionsEvent (products : List DetectedProduct)
  | detectRequest
deriving DecidableEq

/-- The invalid-dimensions message from `captureFrame`. -/
def dimensionErrorMsg : String :=
  "Video dimensions are invalid. Ensure the video is loaded properly."

/-- The cross-origin capture failure message from `captureFrame`. -/
def corsErrorMsg : String :=
  "Cannot capture frame due to security restrictions (CORS). Please try a local file or a CORS-enabled URL."

/-- The fallback message of the `catch` clause in `captureFrame`. -/
def captureFallbackMsg : String :=
  "Failed to analyze the video frame."

/-- Embedding of `captureFrame` as the trace of state-changing calls it
performs, given the intrinsic video dimensions, whether `toDataURL` is
blocked by cross-origin restrictions, and the outcome of the
`detectProducts` call.  The early returns on absent video, canvas or 2D
context produce no events and are outside this trace.  A zero dimension
reports the error and stops; otherwise the `try` block clears the error,
raises the processing flag and clears the detections, then either the
CORS failure or the detection outcome is handled, and the `finally`
clause lowers the processing flag. -/
def captureFrame (videoWidth videoHeight : Nat) (corsBlocked : Bool)
    (detectResult : Except String (List DetectedProduct)) : List CaptureEvent :=
  if videoWidth == 0 || videoHeight == 0 then
    [CaptureEvent.setErrorEvent (Option.some dimensionErrorMsg)]
  else
    [CaptureEvent.setErrorEvent Option.none,
     CaptureEvent.setProcessingEvent true,
     CaptureEvent.setDetectionsEvent []] ++
    (if corsBlocked then
       [CaptureEvent.setErrorEvent (Option.some corsErrorMsg)]
     else
       match detectResult with
       | Except.ok products =>
         [CaptureEvent.detectRequest, CaptureEvent.setDetectionsEvent products]
       | Except.error msg =>
         [CaptureEvent.detectRequest,
          CaptureEvent.setErrorEvent (Option.some (if msg == "" then captureFallbackMsg else msg))]) ++
    [CaptureEvent.setProcessingEvent false]

/-- Effect of one capture event on the component state. -/
def applyEvent (s : PlayerState) : CaptureEvent → PlayerState
  | CaptureEvent.setErrorEvent msg => { s with error := msg }
  | CaptureEvent.setProcessingEvent flag => { s with isProcessing := flag }
  | CaptureEvent.setDetectionsEvent products => { s with detections := products }
  | CaptureEvent.detectRequest => s

/-- State after running a list of capture events from a starting state. -/
def runEvents (s : PlayerState) (events : List CaptureEvent) : PlayerState :=
  events.foldl applyEvent s

/-- Scans an event trace carrying the current value of the processing
flag; true when every `detectRequest` in the trace happens while the flag
is up. -/
def requestsCoveredByProcessing (flag : Bool) : List CaptureEvent → Bool
  | [] => true
  | CaptureEvent.setProcessingEvent b :: rest => requestsCoveredByProcessing b rest
  | CaptureEvent.detectRequest :: rest => flag && requestsCoveredByProcessing flag rest
  | _ :: rest => requestsCoveredByProcessing flag rest
/-- A list is always a prefix of itself followed by anything. -/
theorem isPrefixOf_append_self (l r : List Char) : l.isPrefixOf (l ++ r) = true := by
  induction l with
  | nil => simp [List.isPrefixOf]
  | cons c cs ih => simp [List.isPrefixOf, ih]

/-- The pattern occurs in any character list that contains it as a
contiguous run. -/
theorem infixOccurs_append (l pat r : List Char) : infixOccurs pat (l ++ (pat ++ r)) = true := by
  induction l with
  | nil =>
    cases pat with
    | nil =>
      cases r with
      | nil => rfl
      | cons c cs => simp [infixOccurs, List.isPrefixOf]
    | cons p ps => simp [infixOccurs, isPrefixOf_append_self]
  | cons c cs ih => simp [infixOccurs, ih]

/-- A string built around a middle piece contains that piece. -/
theorem strContains_append_middle (a b c : String) : strContains (a ++ (b ++ c)) b = true := by
  unfold strContains
  rw [String.data_append, String.data_append]
  exact infixOccurs_append a.data b.data c.data

/-- C1: for every detected product the overlay rectangle has
top = ymin/10 %, left = xmin/10 %, width = (xmax - xmin)/10 % and
height = (ymax - ymin)/10 %; for the box [100, 200, 400, 600] the
geometry equals top=10%, left=20%, width=40%, height=30%. -/
theorem C1_overlay_geometry :
    (∀ products : List DetectedProduct, products ≠ [] →
      DetectionOverlay products false = OverlayOutput.rects (products.map (fun p =>
        { top := p.box.ymin / 10
          left := p.box.xmin / 10
          width := (p.box.xmax - p.box.xmin) / 10
          height := (p.box.ymax - p.box.ymin) / 10
          label := p.name
          clickTarget := p.shoppingLink }))) ∧
    (∀ p : DetectedProduct, p.box = { ymin := 100, xmin := 200, ymax := 400, xmax := 600 } →
      DetectionOverlay [p] false = OverlayOutput.rects
        [{ top := 10, left := 20, width := 40, height := 30,
           label := p.name, clickTarget := p.shoppingLink }]) := by
  constructor
  · intro products hne
    have hlen : (products.length == 0) = false := by
      simp [List.length_eq_zero, hne]
    simp [DetectionOverlay, hlen]
  · intro p hbox
    simp [DetectionOverlay, hbox]
    norm_num

/-- C1 witness: the theorem applied to a concrete one-product list with
the box [100, 200, 400, 600]. -/
theorem C1_overlay_geometry_witness :
    DetectionOverlay [{ id := "p1"
                        name := "Lamp"
                        category := "home decor"
                        confidence := 9/10
                        box := { ymin := 100, xmin := 200, ymax := 400, xmax := 600 }
                        shoppingLink := "https://www.google.com/search?q=buy+Lamp" }] false =
      OverlayOutput.rects [{ top := 10, left := 20, width := 40, height := 30, label := "Lamp", clickTarget := "https://www.google.com/search?q=buy+Lamp" }] :=
  C1_overlay_geometry.2 _ rfl

/-- C3 counterexample: a 0-byte file that fails the video-format check is
rejected with the unsupported-format message, not the empty-file
message. -/
theorem C3_counterexample :
    handleFileUpload { name := "notes.txt", type := "text/plain", size := 0 } =
      UploadResult.reject (unsupportedFormatMsg "notes.txt") ∧
    unsupportedFormatMsg "notes.txt" ≠ emptyFileMsg := by decide

/-- C3 amended: every 0-byte file is rejected; with the empty-file message
when it passes the video-format check, and with the unsupported-format
message otherwise. -/
theorem C3_amended (f : JsFile) (hsize : f.size = 0) :
    handleFileUpload f = UploadResult.reject
      (if isVideoMime f || hasVideoExtension f then emptyFileMsg
       else unsupportedFormatMsg f.name) := by
  unfold handleFileUpload
  cases hm : isVideoMime f <;> cases he : hasVideoExtension f <;> simp [hm, he, hsize]

/-- C3 witness: a 0-byte mp4 upload is rejected with the empty-file
message. -/
theorem C3_amended_witness :
    handleFileUpload { name := "clip.mp4", type := "video/mp4", size := 0 } =
      UploadResult.reject emptyFileMsg := by
  have h := C3_amended { name := "clip.mp4", type := "video/mp4", size := 0 } rfl
  rw [(by decide :
    (isVideoMime { name := "clip.mp4", type := "video/mp4", size := 0 } ||
     hasVideoExtension { name := "clip.mp4", type := "video/mp4", size := 0 }) = true)] at h
  simpa using h

/-- C6 counterexample: an oversized file that fails the video-format check
is rejected with the unsupported-format message, which does not contain
the file size in MB. -/
theorem C6_counterexample :
    209715200 > maxSizeInBytes ∧
    handleFileUpload { name := "big.txt", type := "text/plain", size := 209715200 } =
      UploadResult.reject (unsupportedFormatMsg "big.txt") ∧
    strContains (unsupportedFormatMsg "big.txt") (fileSizeMBString 209715200) = false := by decide

/-- C6 amended: every file that passes the video-format check and exceeds
the 100 MB limit is rejected with the oversized-file message, which
contains the actual size in MB. -/
theorem C6_amended (f : JsFile)
    (hformat : (isVideoMime f || hasVideoExtension f) = true)
    (hsize : f.size > maxSizeInBytes) :
    handleFileUpload f = UploadResult.reject (fileTooLargeMsg (fileSizeMBString f.size)) ∧
    strContains (fileTooLargeMsg (fileSizeMBString f.size)) (fileSizeMBString f.size) = true := by
  constructor
  · unfold handleFileUpload
    have hz : (f.size == 0) = false := by
      have : maxSizeInBytes = 104857600 := by decide
      rw [beq_eq_false_iff_ne]
      omega
    rcases Bool.or_eq_true_iff.mp hformat with hm | he
    · simp [hm, hz, hsize]
    · simp [he, hz, hsize]
  · unfold fileTooLargeMsg
    rw [String.append_assoc]
    exact strContains_append_middle _ _ _

/-- C6 witness: a 250 MB mp4 upload is rejected with a message containing
"250.0". -/
theorem C6_amended_witness :
    handleFileUpload { name := "movie.mp4", type := "video/mp4", size := 262144000 } =
      UploadResult.reject (fileTooLargeMsg "250.0") ∧
    strContains (fileTooLargeMsg "250.0") "250.0" = true := by
  have h := C6_amended { name := "movie.mp4", type := "video/mp4", size := 262144000 }
    (by decide) (by decide)
  rw [(by decide : fileSizeMBString 262144000 = "250.0")] at h
  exact h

/-- C7: the play handler clears the detection list and the error state in
every starting state. -/
theorem C7_play_clears (s : PlayerState) :
    (handlePlay s).detections = [] ∧ (handlePlay s).error = Option.none :=
  ⟨rfl, rfl⟩

/-- C10 counterexample: a 0-byte file with a video MIME type and a .mov
extension satisfies the claimed acceptance condition but is rejected. -/
theorem C10_counterexample :
    (isVideoMime { name := "trailer.mov", type := "video/quicktime", size := 0 } ||
      hasVideoExtension { name := "trailer.mov", type := "video/quicktime", size := 0 }) = true ∧
    handleFileUpload { name := "trailer.mov", type := "video/quicktime", size := 0 } ≠
      UploadResult.accepted := by decide

/-- C10 amended: a file is accepted exactly when it passes the
video-format check (video MIME or one of the five extensions,
case-insensitive) and its size is nonzero and at most the 100 MB limit;
in particular .mov and .mkv files and video-MIME files with other
extensions are accepted at conforming sizes, although the rejection
message names only MP4, WebM and OGG. -/
theorem C10_amended :
    (∀ f : JsFile, handleFileUpload f = UploadResult.accepted ↔
      ((isVideoMime f || hasVideoExtension f) = true ∧ f.size ≠ 0 ∧ f.size ≤ maxSizeInBytes)) ∧
    handleFileUpload { name := "trailer.mov", type := "", size := 1024 } = UploadResult.accepted ∧
    handleFileUpload { name := "film.MKV", type := "", size := 1024 } = UploadResult.accepted ∧
    handleFileUpload { name := "stream.xyz", type := "video/x-custom", size := 1024 } =
      UploadResult.accepted ∧
    strContains (unsupportedFormatMsg "file") "MP4, WebM, or OGG" = true ∧
    strContains (unsupportedFormatMsg "file") "MOV" = false ∧
    strContains (unsupportedFormatMsg "file") "MKV" = false := by
  refine ⟨?_, by decide, by decide, by decide, by decide, by decide, by decide⟩
  intro f
  have hmax : maxSizeInBytes = 104857600 := by decide
  unfold handleFileUpload
  split_ifs with h1 h2 h3 <;>
    simp_all [Bool.and_eq_true, Bool.not_eq_true', Bool.or_eq_true_iff, beq_iff_eq]
  all_goals
    first
    | omega
    | (cases hm : isVideoMime f with
       | true => exact Or.inl rfl
       | false => exact Or.inr (h1 hm))
/-- C2 counterexample: a non-empty response whose parsed result is a
well-formed products array with one malformed entry (no category) makes
`detectProducts` fail rather than return zero detections. -/
theorem C2_counterexample :
    ("\x7b\"products\":[\x7b\x7d]\x7d" : String) ≠ "" ∧
    detectProducts "\x7b\"products\":[\x7b\x7d]\x7d"
      (Option.some (JsVal.obj [("products", JsVal.arr [JsVal.obj []])])) =
      Except.error "TypeError: cannot read properties of undefined (reading toLowerCase)" :=
  ⟨by decide, rfl⟩

/-- C2 amended: for a non-empty response whose parsed result carries a
missing or non-array `products` field (and is not `null`, on which the
field access itself throws), `detectProducts` returns zero detections;
malformed entries inside an actual products array, unparseable text and
an empty raw response all fail instead. -/
theorem C2_amended (text : String) (v : JsVal) (htext : text ≠ "")
    (hv : productsFieldNotArray v = true) :
    detectProducts text (Option.some v) = Except.ok [] := by
  have ht : (text == "") = false := beq_eq_false_iff_ne.mpr htext
  cases v with
  | obj fields =>
    cases hl : lookupField fields "products" with
    | none =>
      simp [detectProducts, detectProductsRaw, ht, jsGetField, hl, Bind.bind, Except.bind, pure, Except.pure, List.mapM, List.mapM.loop]
    | some w =>
      cases w <;>
        simp_all [detectProducts, detectProductsRaw, ht, jsGetField, hl, productsFieldNotArray,
          Bind.bind, Except.bind, pure, Except.pure, List.mapM, List.mapM.loop]
  | undef => simp [productsFieldNotArray] at hv
  | null => simp [productsFieldNotArray] at hv
  | bool b => simp [detectProducts, detectProductsRaw, ht, jsGetField, Bind.bind, Except.bind, pure, Except.pure, List.mapM, List.mapM.loop]
  | num q => simp [detectProducts, detectProductsRaw, ht, jsGetField, Bind.bind, Except.bind, pure, Except.pure, List.mapM, List.mapM.loop]
  | str s => simp [detectProducts, detectProductsRaw, ht, jsGetField, Bind.bind, Except.bind, pure, Except.pure, List.mapM, List.mapM.loop]
  | arr elems => simp [detectProducts, detectProductsRaw, ht, jsGetField, Bind.bind, Except.bind, pure, Except.pure, List.mapM, List.mapM.loop]

/-- C2 witness: the amended theorem applied to a parsed empty object. -/
theorem C2_amended_witness :
    detectProducts "\x7b\x7d" (Option.some (JsVal.obj [])) = Except.ok [] :=
  C2_amended "\x7b\x7d" (JsVal.obj []) (by decide) rfl

/-- C5: a parsed response with a missing or empty `products` list yields
zero detections, and the overlay renders nothing for an empty product
list when not processing. -/
theorem C5_empty_products :
    (∀ (text : String) (fields : List (String × JsVal)), text ≠ "" →
      lookupField fields "products" = Option.none →
      detectProducts text (Option.some (JsVal.obj fields)) = Except.ok []) ∧
    (∀ (text : String) (fields : List (String × JsVal)), text ≠ "" →
      lookupField fields "products" = Option.some (JsVal.arr []) →
      detectProducts text (Option.some (JsVal.obj fields)) = Except.ok []) ∧
    DetectionOverlay [] false = OverlayOutput.noOverlay := by
  refine ⟨?_, ?_, rfl⟩
  · intro text fields htext hl
    have ht : (text == "") = false := beq_eq_false_iff_ne.mpr htext
    simp [detectProducts, detectProductsRaw, ht, jsGetField, hl, Bind.bind, Except.bind, pure, Except.pure, List.mapM, List.mapM.loop]
  · intro text fields htext hl
    have ht : (text == "") = false := beq_eq_false_iff_ne.mpr htext
    simp [detectProducts, detectProductsRaw, ht, jsGetField, hl, Bind.bind, Except.bind, pure, Except.pure, List.mapM, List.mapM.loop]

/-- C5 witness: the theorem applied to a concrete response with a missing
`products` field and to one with an empty array. -/
theorem C5_empty_products_witness :
    detectProducts "\x7b\"other\":1\x7d" (Option.some (JsVal.obj [("other", JsVal.num 1)])) =
      Except.ok [] ∧
    detectProducts "\x7b\"products\":[]\x7d"
      (Option.some (JsVal.obj [("products", JsVal.arr [])])) = Except.ok [] :=
  ⟨C5_empty_products.1 _ _ (by decide) rfl,
   C5_empty_products.2.1 _ _ (by decide) rfl⟩

/-- C8: a zero intrinsic dimension reports the invalid-dimensions error
and issues no detection request, and a capture whose frame serialization
is blocked by cross-origin restrictions reports the CORS message. -/
theorem C8_capture_errors :
    (∀ (videoWidth videoHeight : Nat) (corsBlocked : Bool)
       (detectResult : Except String (List DetectedProduct)) (s : PlayerState),
      videoWidth = 0 ∨ videoHeight = 0 →
      (runEvents s (captureFrame videoWidth videoHeight corsBlocked detectResult)).error =
        Option.some dimensionErrorMsg ∧
      CaptureEvent.detectRequest ∉ captureFrame videoWidth videoHeight corsBlocked detectResult) ∧
    (∀ (videoWidth videoHeight : Nat)
       (detectResult : Except String (List DetectedProduct)) (s : PlayerState),
      videoWidth ≠ 0 → videoHeight ≠ 0 →
      (runEvents s (captureFrame videoWidth videoHeight true detectResult)).error =
        Option.some corsErrorMsg) := by
  constructor
  · intro videoWidth videoHeight corsBlocked detectResult s hdim
    have hcond : (videoWidth == 0 || videoHeight == 0) = true := by
      rcases hdim with h | h <;> simp [h]
    simp [captureFrame, hcond, runEvents, applyEvent]
  · intro videoWidth videoHeight detectResult s hw hh
    have hcond : (videoWidth == 0 || videoHeight == 0) = false := by
      simp [beq_eq_false_iff_ne, hw, hh]
    simp [captureFrame, hcond, runEvents, applyEvent]

/-- C8 witness: the theorem applied to a zero-width capture and to a
CORS-blocked capture. -/
theorem C8_capture_errors_witness :
    ((runEvents { isPaused := true, detections := [], isProcessing := false, error := Option.none }
        (captureFrame 0 720 false (Except.ok []))).error = Option.some dimensionErrorMsg ∧
      CaptureEvent.detectRequest ∉ captureFrame 0 720 false (Except.ok [])) ∧
    (runEvents { isPaused := true, detections := [], isProcessing := false, error := Option.none }
        (captureFrame 1280 720 true (Except.ok []))).error = Option.some corsErrorMsg :=
  ⟨C8_capture_errors.1 0 720 false (Except.ok []) _ (Or.inl rfl),
   C8_capture_errors.2 1280 720 (Except.ok []) _ (by decide) (by decide)⟩

/-- C9: past the dimension check, every detection request happens with
the processing flag up, and the flag is back down at the end of the cycle
on every outcome. -/
theorem C9_processing_flag (videoWidth videoHeight : Nat) (corsBlocked : Bool)
    (detectResult : Except String (List DetectedProduct)) (s : PlayerState)
    (hw : videoWidth ≠ 0) (hh : videoHeight ≠ 0) :
    requestsCoveredByProcessing false
      (captureFrame videoWidth videoHeight corsBlocked detectResult) = true ∧
    (runEvents s (captureFrame videoWidth videoHeight corsBlocked detectResult)).isProcessing =
      false := by
  have hcond : (videoWidth == 0 || videoHeight == 0) = false := by
    simp [beq_eq_false_iff_ne, hw, hh]
  cases corsBlocked <;> cases detectResult <;>
    simp [captureFrame, hcond, requestsCoveredByProcessing, runEvents, applyEvent]

/-- C9 witness: the theorem applied to a concrete successful cycle. -/
theorem C9_processing_flag_witness :
    requestsCoveredByProcessing false (captureFrame 1280 720 false (Except.ok [])) = true ∧
    (runEvents { isPaused := true, detections := [], isProcessing := true, error := Option.none }
      (captureFrame 1280 720 false (Except.ok []))).isProcessing = false :=
  C9_processing_flag 1280 720 false (Except.ok []) _ (by decide) (by decide)
